import Mathlib

/-!
# Verification of the Crypto-Signal analytical core

Shallow embedding of the numeric pipeline of the repository
(`app/indicators.py`, `app/bots.py`, `app/signals.py`, `app/data_sources.py`,
`app/bot.py`) over exact rational arithmetic (`ℚ`), with `Option ℚ` for
pandas' NaN/"undefined" cells and `ℝ` only where the source takes a square
root.  Python's `round` (round-half-to-even) is modelled exactly on `ℚ`.
-/

namespace CryptoSignal

/-! ## Python `round` and string lowering -/

/-- Floor of a rational, computed from its normalised numerator/denominator
(`den` is always positive, so Euclidean division is the floor). -/
def qfloor (x : ℚ) : ℤ := x.num.ediv (x.den : ℤ)

/-- Python `round(x)`: nearest integer, ties to even (banker's rounding). -/
def pyRoundInt (x : ℚ) : ℤ :=
  let n := qfloor x
  let r := x - (n : ℚ)
  if r < 1 / 2 then n
  else if 1 / 2 < r then n + 1
  else if n % 2 = 0 then n else n + 1

/-- Python `round(x, d)`: round to `d` decimal places. -/
def roundTo (d : ℕ) (x : ℚ) : ℚ := (pyRoundInt (x * 10 ^ d) : ℚ) / 10 ^ d

/-- Python `str.lower()` (ASCII data only in this pipeline). -/
def lowerStr (s : String) : String := String.mk (s.data.map Char.toLower)

/-- Python `str.upper()`. -/
def upperStr (s : String) : String := String.mk (s.data.map Char.toUpper)

/-! ## NaN-aware comparison (the `Option` view)

pandas/NumPy semantics: any ordered comparison involving a float NaN is
`False`.  `none` here models a float-NaN cell (missing history).  Cells
holding the pandas `NA` singleton behave differently — a comparison
against `NA` is `NA` and the bots' conditionals then raise — and are
modelled separately below by `Cell`, `cellGt` and `pyIf`; this `Option`
view is the NA-free fragment (see `NARow.toIndRow` and the agreement
lemmas). -/

/-- `a > b` where either side may be float NaN; NaN compares `false`. -/
def nanGt (a b : Option ℚ) : Bool :=
  match a, b with
  | some x, some y => decide (y < x)
  | _, _ => false

/-- `a < b` where either side may be float NaN; NaN compares `false`. -/
def nanLt (a b : Option ℚ) : Bool := nanGt b a

/-! ## `app/indicators.py`

A price series is a `List ℚ`; a derived column is a function `ℕ → Option ℚ`
from row index to (possibly undefined) value. -/

/-- `series.diff()` at row `i`: per-bar delta, undefined at row 0 and out of
range (`indicators.py` line 17). -/
def diffAt (p : List ℚ) (i : ℕ) : Option ℚ :=
  if i = 0 then none
  else
    match p[i]?, p[i - 1]? with
    | some a, some b => some (a - b)
    | _, _ => none

/-- `delta.clip(lower=0)`: positive part of the delta (line 18). -/
def gainAt (p : List ℚ) (i : ℕ) : Option ℚ := (diffAt p i).map (fun d => max d 0)

/-- `-delta.clip(upper=0)`: sign-flipped negative part of the delta (line 19). -/
def lossAt (p : List ℚ) (i : ℕ) : Option ℚ := (diffAt p i).map (fun d => max (-d) 0)

/-- `Series.ewm(alpha, adjust=False).mean()` without the `min_periods` gate:
recursive weighted update `y ← (1-α)·y + α·x`, seeded by the first available
value; an undefined cell carries the previous value forward (in this
pipeline undefined cells only occur as a prefix, so the carry case is
never exercised). -/
def ewmRec (a : ℚ) (x : ℕ → Option ℚ) : ℕ → Option ℚ
  | 0 => x 0
  | i + 1 =>
    match ewmRec a x i, x (i + 1) with
    | some m, some v => some ((1 - a) * m + a * v)
    | some m, none => some m
    | none, some v => some v
    | none, none => none

/-- Number of defined observations among rows `0..i` (pandas `nobs`). -/
def nobs (x : ℕ → Option ℚ) : ℕ → ℕ
  | 0 => if (x 0).isSome then 1 else 0
  | i + 1 => nobs x i + if (x (i + 1)).isSome then 1 else 0

/-- `Series.ewm(alpha, min_periods, adjust=False).mean()`: the recursive
average, gated to undefined until `min_periods` observations accumulated
(`indicators.py` lines 20-21). -/
def ewmMean (a : ℚ) (minp : ℕ) (x : ℕ → Option ℚ) (i : ℕ) : Option ℚ :=
  if minp ≤ nobs x i then ewmRec a x i else none

/-- `gain.ewm(alpha=1/period, min_periods=period, adjust=False).mean()`. -/
def avgGain (p : List ℚ) (period i : ℕ) : Option ℚ :=
  ewmMean (1 / (period : ℚ)) period (gainAt p) i

/-- `loss.ewm(alpha=1/period, min_periods=period, adjust=False).mean()`. -/
def avgLoss (p : List ℚ) (period i : ℕ) : Option ℚ :=
  ewmMean (1 / (period : ℚ)) period (lossAt p) i

/-- `rsi(series, period)` (`indicators.py` lines 16-23):
`rs = avg_gain / avg_loss.replace(0, NA)`, `RSI = 100 - 100/(1+rs)`;
a zero average loss therefore yields an undefined cell, and NaN
propagates through the arithmetic. -/
def rsi (p : List ℚ) (period i : ℕ) : Option ℚ :=
  match avgGain p period i, avgLoss p period i with
  | some g, some l => if l = 0 then none else some (100 - 100 / (1 + g / l))
  | _, _ => none

/-- Trailing window of (up to) `period` values ending at row `i`. -/
def windowAt (p : List ℚ) (period i : ℕ) : List ℚ :=
  (p.take (i + 1)).drop (i + 1 - period)

/-- Arithmetic mean of a list (0 for the empty list, never used that way). -/
def listMean (l : List ℚ) : ℚ := l.sum / l.length

/-- `sma(series, period)` = `series.rolling(period, min_periods=period).mean()`
(`indicators.py` lines 8-9): defined once the trailing window is full. -/
def sma (p : List ℚ) (period i : ℕ) : Option ℚ :=
  if period ≤ i + 1 ∧ i < p.length then some ((windowAt p period i).sum / period)
  else none

/-- pandas `Series.std` / `Rolling.std` variance with the default `ddof=1`:
sample variance, sum of squared deviations divided by `n - 1`.
(For `n = 1` pandas gives NaN; that case never arises in this pipeline.) -/
def sampleVar (l : List ℚ) : ℚ :=
  (l.map (fun x => (x - listMean l) ^ 2)).sum / ((l.length : ℚ) - 1)

/-- Sample standard deviation (pandas default `ddof=1`). -/
noncomputable def sampleStd (l : List ℚ) : ℝ := Real.sqrt ((sampleVar l : ℚ) : ℝ)

/-- `series.rolling(window=period, min_periods=period).std()`
(`indicators.py` line 35). -/
noncomputable def rollingStd (p : List ℚ) (period i : ℕ) : Option ℝ :=
  if period ≤ i + 1 ∧ i < p.length then some (sampleStd (windowAt p period i))
  else none

/-- `bollinger_bands(series, period, std_dev)` (`indicators.py` lines 33-36),
returned as `(bb_upper, bb_middle, bb_lower)`. -/
noncomputable def bollinger_bands (p : List ℚ) (period : ℕ) (std_dev : ℝ) (i : ℕ) :
    Option (ℝ × ℝ × ℝ) :=
  match sma p period i, rollingStd p period i with
  | some middle, some s =>
      some ((middle : ℝ) + std_dev * s, (middle : ℝ), (middle : ℝ) - std_dev * s)
  | _, _ => none

/-- Population variance (divide by `n`): the quantity the specification
calls "rolling population std-dev"; kept for comparison with the code's
`sampleVar`. -/
def popVar (l : List ℚ) : ℚ :=
  (l.map (fun x => (x - listMean l) ^ 2)).sum / (l.length : ℚ)

/-- Population standard deviation, per the specification's wording. -/
noncomputable def popStd (l : List ℚ) : ℝ := Real.sqrt ((popVar l : ℚ) : ℝ)

/-! ## `app/data_sources.py`: volatility of a sparkline price path -/

/-- `prices.pct_change().dropna()`: simple percentage returns between
consecutive points, with the non-computable first entry dropped
(`data_sources.py` line 33). -/
def pct_change_returns (prices : List ℚ) : List ℚ :=
  List.zipWith (fun a b => (b - a) / a) prices prices.tail

/-- `_volatility(prices_wrap)` (`data_sources.py` lines 29-36): 0.0 for
fewer than 3 observations, else `returns.std() * sqrt(returns.size) * 100`
(sample std-dev, pandas default `ddof=1`). -/
noncomputable def volatility_score (prices : List ℚ) : ℝ :=
  if prices.length < 3 then 0
  else
    let returns := pct_change_returns prices
    if returns = [] then 0
    else sampleStd returns * Real.sqrt (returns.length : ℝ) * 100

/-! ## A descending sort, standing in for pandas `sort_values(ascending=False)`

`sort_values` is called with the default `kind='quicksort'` (NumPy
introsort), whose ordering of *equal* keys is implementation-defined
(NumPy documents quicksort as not stable).  The model below fixes one
representative output ordering — a stable descending insertion sort —
and every theorem proved against it uses only ordering-insensitive
consequences (membership, permutation, emptiness), which hold for any
output `sort_values` may produce.  Tie order itself is deliberately not
claimed as a property of the source. -/

/-- Insert `x` into `l` before the first element whose key is `≤ key x`. -/
def ordInsertDesc {α : Type} (key : α → ℚ) (x : α) : List α → List α
  | [] => [x]
  | y :: l => if key y ≤ key x then x :: y :: l else y :: ordInsertDesc key x l

/-- Descending insertion sort by a rational key (a representative of the
implementation-defined orderings of `sort_values(ascending=False)`). -/
def sortDescStable {α : Type} (key : α → ℚ) : List α → List α
  | [] => []
  | x :: l => ordInsertDesc key x (sortDescStable key l)

/-! ## `app/bots.py` -/

/-- The latest (or second-to-latest) row of the enriched series in the
`Option` (NA-free) view: `close` and `volume` are raw data columns and
every derived indicator column may be float NaN (missing history).  This
is the image of `NARow.toIndRow`; it is adequate for the score-range and
aggregation analysis of score-returning executions, while rows holding
the pandas `NA` singleton (on which the real bots raise) are modelled by
`NARow` and the checked evaluators below. -/
structure IndRow where
  close : ℚ
  volume : ℚ
  ema_20 : Option ℚ
  macd : Option ℚ
  signal : Option ℚ
  rsi_14 : Option ℚ
  bb_lower : Option ℚ
  bb_upper : Option ℚ
  stoch_k : Option ℚ
  vwap : Option ℚ
deriving DecidableEq

/-- `BotSignal` (`bots.py` lines 11-18). -/
structure BotSignal where
  symbol : String
  bot : String
  side : String
  confidence : String
  score : ℚ
  reason : String
deriving DecidableEq

/-- TrendBot rule 1 (`bots.py` line 34): `+12` if `close > ema_20` else `-10`. -/
def trendEmaTerm (r : IndRow) : ℚ := if nanGt (some r.close) r.ema_20 then 12 else -10

/-- TrendBot rule 2 (line 35): `+10` if `macd > signal` else `-8`. -/
def trendMacdTerm (r : IndRow) : ℚ := if nanGt r.macd r.signal then 10 else -8

/-- TrendBot rule 3 (line 36): `+8` if `rsi_14 > 50` else `-6`. -/
def trendRsiTerm (r : IndRow) : ℚ := if nanGt r.rsi_14 (some 50) then 8 else -6

/-- TrendBot raw score: base 50 plus the three rule increments. -/
def trendRaw (r : IndRow) : ℚ := 50 + trendEmaTerm r + trendMacdTerm r + trendRsiTerm r

/-- `TrendBot.evaluate` (`bots.py` lines 31-39). -/
def trendEvaluate (symbol : String) (r : IndRow) : BotSignal :=
  let score := trendRaw r
  { symbol := symbol
    bot := "TrendBot"
    side := if 55 ≤ score then "BUY" else "HOLD"
    confidence := if 70 ≤ score then "High" else if 55 ≤ score then "Moderate" else "Low"
    score := roundTo 2 (max 0 (min 100 score))
    reason := "Trend-following EMA+MACD+RSI consensus" }

/-- MeanReversionBot rule 1 (line 48): `+15` if `rsi_14 < 35` else `-8`. -/
def mrRsiTerm (r : IndRow) : ℚ := if nanLt r.rsi_14 (some 35) then 15 else -8

/-- MeanReversionBot rule 2 (line 49): `+12` if `close < bb_lower` else `-7`. -/
def mrBbTerm (r : IndRow) : ℚ := if nanLt (some r.close) r.bb_lower then 12 else -7

/-- MeanReversionBot rule 3 (line 50): `+6` if `stoch_k < 20` else `-5`. -/
def mrStochTerm (r : IndRow) : ℚ := if nanLt r.stoch_k (some 20) then 6 else -5

/-- MeanReversionBot raw score. -/
def mrRaw (r : IndRow) : ℚ := 50 + mrRsiTerm r + mrBbTerm r + mrStochTerm r

/-- `MeanReversionBot.evaluate` (`bots.py` lines 45-53). -/
def meanReversionEvaluate (symbol : String) (r : IndRow) : BotSignal :=
  let score := mrRaw r
  { symbol := symbol
    bot := "MeanReversionBot"
    side := if 60 ≤ score then "BUY" else "HOLD"
    confidence := if 75 ≤ score then "High" else if 60 ≤ score then "Moderate" else "Low"
    score := roundTo 2 (max 0 (min 100 score))
    reason := "Oversold reversion with Bollinger and Stochastic confirmation" }

/-- BreakoutBot rule 1 (line 63): `+14` if `close > bb_upper` else `-6`. -/
def bbUpperTerm (r : IndRow) : ℚ := if nanGt (some r.close) r.bb_upper then 14 else -6

/-- BreakoutBot rule 2 (line 64): `+10` if `volume > prev.volume` else `-4`;
the caller passes `prev = r` when no prior row exists (line 61). -/
def bbVolumeTerm (r prev : IndRow) : ℚ := if nanGt (some r.volume) (some prev.volume) then 10 else -4

/-- BreakoutBot rule 3 (line 65): `+8` if `close > vwap` else `-5`. -/
def bbVwapTerm (r : IndRow) : ℚ := if nanGt (some r.close) r.vwap then 8 else -5

/-- BreakoutBot raw score. -/
def bbRaw (r prev : IndRow) : ℚ := 50 + bbUpperTerm r + bbVolumeTerm r prev + bbVwapTerm r

/-- `BreakoutBot.evaluate` (`bots.py` lines 59-68). -/
def breakoutEvaluate (symbol : String) (r prev : IndRow) : BotSignal :=
  let score := bbRaw r prev
  { symbol := symbol
    bot := "BreakoutBot"
    side := if 62 ≤ score then "BUY" else "HOLD"
    confidence := if 76 ≤ score then "High" else if 62 ≤ score then "Moderate" else "Low"
    score := roundTo 2 (max 0 (min 100 score))
    reason := "Breakout momentum above bands with volume/VWAP confirmation" }

/-- `run_bot_suite` (`bots.py` lines 71-74): evaluate the three bots on the
latest row (`r`, with `prev` the second-to-latest, or `r` itself if none)
and re-sort the signals descending by score. -/
def run_bot_suite (symbol : String) (r prev : IndRow) : List BotSignal :=
  sortDescStable (fun s => s.score)
    [trendEvaluate symbol r, meanReversionEvaluate symbol r, breakoutEvaluate symbol r prev]

/-- `aggregate_symbol_score` (`bots.py` lines 77-83): mean score and count
of BUY sides, `(0, 0)` on an empty signal set. -/
def aggregate_symbol_score (l : List BotSignal) : ℚ × ℚ :=
  if l = [] then (0, 0)
  else ((l.map (fun s => s.score)).sum / (l.length : ℚ),
        ((l.countP (fun s => s.side == "BUY") : ℕ) : ℚ))

/-! ## Cell-accurate bot semantics: float NaN versus pandas `NA`

`replace(0, pd.NA)` in `rsi`, `stochastic` and `vwap` stores the pandas
`NA` singleton (upcasting the column to object dtype); it is not a float
NaN.  A comparison against NaN is `False`, but a comparison against `NA`
is `NA`, and the truthiness test of a conditional expression —
`bool(pd.NA)` — raises `TypeError: boolean value of NA is ambiguous`.
The evaluators below mirror the bots' left-to-right conditional
evaluation with this error path explicit. -/

/-- Result of a Python ordered comparison whose operands may be `pd.NA`. -/
inductive PyBool where
  | b (v : Bool)
  | na
deriving DecidableEq

/-- One indicator cell as the bots read it: a float value, a float NaN
(missing history), or the pandas `NA` singleton. -/
inductive Cell where
  | val (q : ℚ)
  | nan
  | na
deriving DecidableEq

/-- Python `a > b` on cells: `NA` if either side is `NA`, `False` if
either side is a float NaN, else the numeric comparison. -/
def cellGt : Cell → Cell → PyBool
  | Cell.na, _ => PyBool.na
  | _, Cell.na => PyBool.na
  | Cell.val x, Cell.val y => PyBool.b (decide (y < x))
  | _, _ => PyBool.b false

/-- Python `a < b` on cells. -/
def cellLt (a b : Cell) : PyBool := cellGt b a

/-- Truthiness of a comparison result inside a conditional expression:
`bool(pd.NA)` raises `TypeError`. -/
def pyIf {α : Type} (c : PyBool) (t e : α) : Except String α :=
  match c with
  | PyBool.b true => Except.ok t
  | PyBool.b false => Except.ok e
  | PyBool.na => Except.error "TypeError: boolean value of NA is ambiguous"

/-- The latest (or second-to-latest) row of the enriched series with the
full cell semantics. -/
structure NARow where
  close : ℚ
  volume : ℚ
  ema_20 : Cell
  macd : Cell
  signal : Cell
  rsi_14 : Cell
  bb_lower : Cell
  bb_upper : Cell
  stoch_k : Cell
  vwap : Cell
deriving DecidableEq

/-- Forget the NaN/NA distinction: both read as an undefined `Option` cell. -/
def Cell.toOpt : Cell → Option ℚ
  | Cell.val q => some q
  | _ => none

/-- The `Option` view of a row, used by the total bot model. -/
def NARow.toIndRow (r : NARow) : IndRow :=
  { close := r.close, volume := r.volume, ema_20 := r.ema_20.toOpt, macd := r.macd.toOpt,
    signal := r.signal.toOpt, rsi_14 := r.rsi_14.toOpt, bb_lower := r.bb_lower.toOpt,
    bb_upper := r.bb_upper.toOpt, stoch_k := r.stoch_k.toOpt, vwap := r.vwap.toOpt }

/-- `TrendBot.evaluate` (`bots.py` lines 31-39) with the error path
explicit: the three conditionals are evaluated left to right and the
first comparison yielding `NA` raises. -/
def trendEvaluateChecked (symbol : String) (r : NARow) : Except String BotSignal :=
  match pyIf (cellGt (Cell.val r.close) r.ema_20) (12 : ℚ) (-10) with
  | Except.error e => Except.error e
  | Except.ok t1 =>
    match pyIf (cellGt r.macd r.signal) (10 : ℚ) (-8) with
    | Except.error e => Except.error e
    | Except.ok t2 =>
      match pyIf (cellGt r.rsi_14 (Cell.val 50)) (8 : ℚ) (-6) with
      | Except.error e => Except.error e
      | Except.ok t3 =>
        let score := 50 + t1 + t2 + t3
        Except.ok
          { symbol := symbol
            bot := "TrendBot"
            side := if 55 ≤ score then "BUY" else "HOLD"
            confidence := if 70 ≤ score then "High"
              else if 55 ≤ score then "Moderate" else "Low"
            score := roundTo 2 (max 0 (min 100 score))
            reason := "Trend-following EMA+MACD+RSI consensus" }

/-- `MeanReversionBot.evaluate` (`bots.py` lines 45-53) with the error
path explicit; the `rsi_14 < 35` conditional is evaluated first. -/
def meanReversionEvaluateChecked (symbol : String) (r : NARow) : Except String BotSignal :=
  match pyIf (cellLt r.rsi_14 (Cell.val 35)) (15 : ℚ) (-8) with
  | Except.error e => Except.error e
  | Except.ok t1 =>
    match pyIf (cellLt (Cell.val r.close) r.bb_lower) (12 : ℚ) (-7) with
    | Except.error e => Except.error e
    | Except.ok t2 =>
      match pyIf (cellLt r.stoch_k (Cell.val 20)) (6 : ℚ) (-5) with
      | Except.error e => Except.error e
      | Except.ok t3 =>
        let score := 50 + t1 + t2 + t3
        Except.ok
          { symbol := symbol
            bot := "MeanReversionBot"
            side := if 60 ≤ score then "BUY" else "HOLD"
            confidence := if 75 ≤ score then "High"
              else if 60 ≤ score then "Moderate" else "Low"
            score := roundTo 2 (max 0 (min 100 score))
            reason := "Oversold reversion with Bollinger and Stochastic confirmation" }

/-- `BreakoutBot.evaluate` (`bots.py` lines 59-68) with the error path
explicit (the raw `volume` columns are always floats). -/
def breakoutEvaluateChecked (symbol : String) (r prev : NARow) : Except String BotSignal :=
  match pyIf (cellGt (Cell.val r.close) r.bb_upper) (14 : ℚ) (-6) with
  | Except.error e => Except.error e
  | Except.ok t1 =>
    match pyIf (cellGt (Cell.val r.volume) (Cell.val prev.volume)) (10 : ℚ) (-4) with
    | Except.error e => Except.error e
    | Except.ok t2 =>
      match pyIf (cellGt (Cell.val r.close) r.vwap) (8 : ℚ) (-5) with
      | Except.error e => Except.error e
      | Except.ok t3 =>
        let score := 50 + t1 + t2 + t3
        Except.ok
          { symbol := symbol
            bot := "BreakoutBot"
            side := if 62 ≤ score then "BUY" else "HOLD"
            confidence := if 76 ≤ score then "High"
              else if 62 ≤ score then "Moderate" else "Low"
            score := roundTo 2 (max 0 (min 100 score))
            reason := "Breakout momentum above bands with volume/VWAP confirmation" }

/-- The `rsi_14` cell as stored in the enriched frame, distinguishing the
float NaN of the `min_periods` gate from the `pd.NA` introduced by
`replace(0, pd.NA)` on a zero average loss (`indicators.py` lines 16-23):
`rs = avg_gain / avg_loss.replace(0, pd.NA)` propagates NaN through the
gated rows and `NA` through the zero-loss rows. -/
def rsiCell (p : List ℚ) (period i : ℕ) : Cell :=
  match avgGain p period i, avgLoss p period i with
  | some g, some l => if l = 0 then Cell.na else Cell.val (100 - 100 / (1 + g / l))
  | _, _ => Cell.nan

/-! ## `app/signals.py` -/

/-- The cross-sectional feature row read by `generate_ai_insight`. -/
structure FeatureRow where
  symbol : String
  trend_strength : ℚ
  volume_to_mcap : ℚ
  volatility : ℚ
deriving DecidableEq

/-- `Insight` (`signals.py` lines 10-17). -/
structure Insight where
  symbol : String
  score : ℚ
  confidence : String
  action : String
  rationale : String
  risk_note : String
deriving DecidableEq

/-- `classify_confidence` (`signals.py` lines 20-25). -/
def classify_confidence (score : ℚ) : String :=
  if 70 ≤ score then "High" else if 50 ≤ score then "Moderate" else "Low"

/-- The clamped insight score (`signals.py` lines 33-35):
`50 + trend·1.1 + (volume_to_mcap·100)·1.2 - volatility·0.5 + (sentiment-50)·0.3`,
clamped to `[0, 100]`. -/
def insightScore (row : FeatureRow) (sentiment_value : ℚ) : ℚ :=
  let trend := row.trend_strength
  let liquidity := row.volume_to_mcap * 100
  let volatility := row.volatility
  max 0 (min 100
    (50 + trend * 1.1 + liquidity * 1.2 - volatility * 0.5 + (sentiment_value - 50) * 0.3))

/-- `generate_ai_insight` (`signals.py` lines 28-61). -/
def generate_ai_insight (row : FeatureRow) (sentiment_value : ℚ) : Insight :=
  let score := insightScore row sentiment_value
  let volatility := row.volatility
  { symbol := upperStr row.symbol
    score := roundTo 2 score
    confidence := classify_confidence score
    action :=
      if 68 ≤ score then "Momentum Long Setup"
      else if score ≤ 38 then "Defensive / Mean-Reversion Watch"
      else "Range Trade / Breakout Watch"
    rationale :=
      if 68 ≤ score then "Trend and liquidity align; use staged entries and trail risk."
      else if score ≤ 38 then "Signal quality is weak; preserve capital and wait for confirmation."
      else "Conditions are mixed; reduce size and define invalidation clearly."
    risk_note :=
      if 20 < volatility then "High volatility: smaller size, wider stops, lower leverage."
      else if volatility < 8 then "Low volatility: monitor compression and breakout triggers."
      else "Normal volatility: keep standard risk allocation." }

/-! ## `app/bot.py`: order planning -/

/-- The risk-preset fields read by `build_order_plan` (`bot.py` lines 9-34;
`timeframe` and `max_positions` of a preset are not read by the planner,
which takes `max_positions` as a separate argument). -/
structure RiskPreset where
  risk_per_trade : ℚ
  stop_loss_pct : ℚ
  take_profit_pct : ℚ
  min_signal_score : ℚ
deriving DecidableEq

/-- One row of the (already ranked) insights frame, as read by the planner. -/
structure InsightRow where
  symbol : String
  score : ℚ
deriving DecidableEq

/-- An emitted order (`bot.py` lines 56-67). -/
structure Order where
  symbol : String
  signal_score : ℚ
  entry : ℚ
  stop_loss : ℚ
  take_profit : ℚ
  position_size_units : ℚ
  action : String
  execution_mode : String
deriving DecidableEq

/-- `insights_df[insights_df["score"] >= preset["min_signal_score"]]
.head(max_positions)` (`bot.py` line 38). -/
def tradable (insights : List InsightRow) (preset : RiskPreset) (max_positions : ℕ) :
    List InsightRow :=
  (insights.filter (fun r => decide (preset.min_signal_score ≤ r.score))).take max_positions

/-- The per-candidate body of the planning loop (`bot.py` lines 45-67):
look up the current price by lower-cased symbol (missing prices default to
0.0), skip the candidate if it is `≤ 0`, otherwise size and emit an order.
The market frame is a symbol → current_price association list.  -/
def mkOrder (market : List (String × ℚ)) (preset : RiskPreset) (account_size : ℚ)
    (execution_mode : String) (row : InsightRow) : Option Order :=
  let entry := ((market.lookup (lowerStr row.symbol)).getD 0)
  if entry ≤ 0 then none
  else
    let risk_amount := account_size * (preset.risk_per_trade / 100)
    let stop := entry * (1 - preset.stop_loss_pct / 100)
    let target := entry * (1 + preset.take_profit_pct / 100)
    let unit_risk := max (entry - stop) (1 / 100000000)
    some
      { symbol := row.symbol
        signal_score := row.score
        entry := roundTo 6 entry
        stop_loss := roundTo 6 stop
        take_profit := roundTo 6 target
        position_size_units := roundTo 4 (risk_amount / unit_risk)
        action := "BUY"
        execution_mode := execution_mode }

/-- The `orders` list accumulated by the loop, in candidate order. -/
def planOrders (insights : List InsightRow) (market : List (String × ℚ)) (preset : RiskPreset)
    (account_size : ℚ) (max_positions : ℕ) (execution_mode : String) : List Order :=
  (tradable insights preset max_positions).filterMap
    (mkOrder market preset account_size execution_mode)

/-- `build_order_plan` (`bot.py` lines 37-69): filter, truncate, price, size,
then re-sort descending by the originating score (`sort_values` with
`ascending=False`; an empty `orders` list yields an empty frame either way). -/
def build_order_plan (insights : List InsightRow) (market : List (String × ℚ))
    (preset : RiskPreset) (account_size : ℚ) (max_positions : ℕ)
    (execution_mode : String) : List Order :=
  sortDescStable (fun o => o.signal_score)
    (planOrders insights market preset account_size max_positions execution_mode)

/-! ## Concrete fixtures used by witnesses and counterexamples -/

/-- A latest row in which every derived indicator is undefined (for
example, a series shorter than every indicator's period). -/
def rowAllNone : IndRow :=
  { close := 1, volume := 1, ema_20 := none, macd := none, signal := none,
    rsi_14 := none, bb_lower := none, bb_upper := none, stoch_k := none, vwap := none }

/-- A strictly decreasing 16-bar price series: every delta is `-1`. -/
def pricesDown : List ℚ := [15, 14, 13, 12, 11, 10, 9, 8, 7, 6, 5, 4, 3, 2, 1, 0]

/-- A strictly increasing 16-bar price series: every delta is `+1`,
so the average loss is exactly 0 once defined. -/
def pricesUp : List ℚ := [0, 1, 2, 3, 4, 5, 6, 7, 8, 9, 10, 11, 12, 13, 14, 15]

/-- Twenty prices: ten zeros then ten twos.  Mean 1; the sum of squared
deviations is 20, so the sample variance is `20/19` while the population
variance is `1`. -/
def pricesStep : List ℚ := [0, 0, 0, 0, 0, 0, 0, 0, 0, 0, 2, 2, 2, 2, 2, 2, 2, 2, 2, 2]

/-- Twenty constant prices. -/
def pricesFlat : List ℚ := [5, 5, 5, 5, 5, 5, 5, 5, 5, 5, 5, 5, 5, 5, 5, 5, 5, 5, 5, 5]

/-- A latest row shaped like row 14 of the strictly rising 16-bar series
`pricesUp`: the average loss is exactly 0 there, so `rsi_14` holds the
pandas `NA` singleton, while the 20-period Bollinger cells are still
float NaN.  The remaining cells carry representative values; the raised
`TypeError` depends only on `rsi_14 = NA` (see the general lemmas). -/
def rowNaRsi : NARow :=
  { close := 14, volume := 1, ema_20 := Cell.val 10, macd := Cell.val 1,
    signal := Cell.val 1, rsi_14 := Cell.na, bb_lower := Cell.nan, bb_upper := Cell.nan,
    stoch_k := Cell.nan, vwap := Cell.val 7 }

/-- A latest row in which every indicator cell is a float NaN (a series
shorter than every indicator's period): its `Option` view is `rowAllNone`. -/
def rowAllNanCells : NARow :=
  { close := 1, volume := 1, ema_20 := Cell.nan, macd := Cell.nan, signal := Cell.nan,
    rsi_14 := Cell.nan, bb_lower := Cell.nan, bb_upper := Cell.nan, stoch_k := Cell.nan,
    vwap := Cell.nan }

/-- A single qualifying ranked insight. -/
def sampleInsights : List InsightRow := [{ symbol := "BTC", score := 70 }]

/-- A market snapshot giving BTC a current price of 100. -/
def sampleMarket : List (String × ℚ) := [("btc", 100)]

/-- A preset with `risk_per_trade = 1`, `stop_loss_pct = 2`,
`take_profit_pct = 2`, `min_signal_score = 60`. -/
def samplePreset : RiskPreset :=
  { risk_per_trade := 1, stop_loss_pct := 2, take_profit_pct := 2, min_signal_score := 60 }

/-- The single order the planner produces from the sample fixtures. -/
def sampleOrder : Order :=
  { symbol := "BTC", signal_score := 70, entry := 100, stop_loss := 98, take_profit := 102,
    position_size_units := 50, action := "BUY", execution_mode := "paper" }

/-- A sample feature row (trend 10, no liquidity or volatility signal). -/
def sampleFeatureRow : FeatureRow :=
  { symbol := "btc", trend_strength := 10, volume_to_mcap := 0, volatility := 0 }

/-! ## Helper lemmas: rounding -/

theorem qfloor_intCast (m : ℤ) : qfloor (m : ℚ) = m := by
  rw [qfloor, Rat.num_intCast, Rat.den_intCast, Nat.cast_one]
  exact Int.ediv_one m

theorem pyRoundInt_intCast (m : ℤ) : pyRoundInt (m : ℚ) = m := by
  simp [pyRoundInt, qfloor_intCast]

theorem roundTo_intCast (d : ℕ) (m : ℤ) : roundTo d (m : ℚ) = m := by
  have h1 : ((m : ℚ) * 10 ^ d) = ((m * 10 ^ d : ℤ) : ℚ) := by push_cast; ring
  have h2 : ((10 : ℚ) ^ d) ≠ 0 := by positivity
  rw [roundTo, h1, pyRoundInt_intCast]
  push_cast
  field_simp

/-- Rounding after a no-op clamp of an integer value in `[0, 100]` is the
identity; this is the form in which bot scores are returned. -/
theorem clamp_roundTo_intCast (m : ℤ) (h0 : (0 : ℚ) ≤ (m : ℚ)) (h1 : ((m : ℚ)) ≤ 100) :
    roundTo 2 (max 0 (min 100 (m : ℚ))) = (m : ℚ) := by
  rw [min_eq_right h1, max_eq_right h0, roundTo_intCast]

/-! ## Helper lemmas: the stable descending sort -/

theorem perm_ordInsertDesc {α : Type} (key : α → ℚ) (x : α) (l : List α) :
    (ordInsertDesc key x l).Perm (x :: l) := by
  induction l with
  | nil => simp [ordInsertDesc]
  | cons y l ih =>
    rw [ordInsertDesc]
    by_cases h : key y ≤ key x
    · simp [h]
    · simp only [h, if_false]
      exact (ih.cons y).trans (List.Perm.swap x y l)

theorem perm_sortDescStable {α : Type} (key : α → ℚ) (l : List α) :
    (sortDescStable key l).Perm l := by
  induction l with
  | nil => simp [sortDescStable]
  | cons x l ih =>
    rw [sortDescStable]
    exact (perm_ordInsertDesc key x (sortDescStable key l)).trans (ih.cons x)

theorem mem_sortDescStable {α : Type} (key : α → ℚ) (l : List α) (a : α) :
    a ∈ sortDescStable key l ↔ a ∈ l :=
  (perm_sortDescStable key l).mem_iff

/-! ## Helper lemmas: bot raw scores -/

/-- A two-branch increment with integer-valued branches is integer-valued. -/
theorem ite_qint (c : Bool) (a b : ℤ) (x y : ℚ) (hx : x = (a : ℚ)) (hy : y = (b : ℚ)) :
    ∃ m : ℤ, (if c then x else y) = (m : ℚ) := by
  cases c
  · exact ⟨b, hy⟩
  · exact ⟨a, hx⟩

theorem trendRaw_int (r : IndRow) : ∃ m : ℤ, trendRaw r = (m : ℚ) := by
  obtain ⟨a, ha⟩ := ite_qint (nanGt (some r.close) r.ema_20) 12 (-10) 12 (-10)
    (by norm_num) (by norm_num)
  obtain ⟨b, hb⟩ := ite_qint (nanGt r.macd r.signal) 10 (-8) 10 (-8) (by norm_num) (by norm_num)
  obtain ⟨c, hc⟩ := ite_qint (nanGt r.rsi_14 (some 50)) 8 (-6) 8 (-6) (by norm_num) (by norm_num)
  refine ⟨50 + a + b + c, ?_⟩
  rw [trendRaw, trendEmaTerm, trendMacdTerm, trendRsiTerm, ha, hb, hc]
  push_cast
  ring

theorem trendRaw_bounds (r : IndRow) : 26 ≤ trendRaw r ∧ trendRaw r ≤ 80 := by
  rw [trendRaw, trendEmaTerm, trendMacdTerm, trendRsiTerm]
  cases nanGt (some r.close) r.ema_20 <;>
    cases nanGt r.macd r.signal <;>
      cases nanGt r.rsi_14 (some 50) <;>
        norm_num

theorem trendScore_eq (symbol : String) (r : IndRow) :
    (trendEvaluate symbol r).score = trendRaw r := by
  obtain ⟨m, hm⟩ := trendRaw_int r
  have hb := trendRaw_bounds r
  show roundTo 2 (max 0 (min 100 (trendRaw r))) = trendRaw r
  rw [hm] at hb ⊢
  exact clamp_roundTo_intCast m (le_trans (by norm_num) hb.1) (le_trans hb.2 (by norm_num))

theorem mrRaw_int (r : IndRow) : ∃ m : ℤ, mrRaw r = (m : ℚ) := by
  obtain ⟨a, ha⟩ := ite_qint (nanLt r.rsi_14 (some 35)) 15 (-8) 15 (-8) (by norm_num) (by norm_num)
  obtain ⟨b, hb⟩ := ite_qint (nanLt (some r.close) r.bb_lower) 12 (-7) 12 (-7)
    (by norm_num) (by norm_num)
  obtain ⟨c, hc⟩ := ite_qint (nanLt r.stoch_k (some 20)) 6 (-5) 6 (-5) (by norm_num) (by norm_num)
  refine ⟨50 + a + b + c, ?_⟩
  rw [mrRaw, mrRsiTerm, mrBbTerm, mrStochTerm, ha, hb, hc]
  push_cast
  ring

theorem mrRaw_bounds (r : IndRow) : 30 ≤ mrRaw r ∧ mrRaw r ≤ 83 := by
  rw [mrRaw, mrRsiTerm, mrBbTerm, mrStochTerm]
  cases nanLt r.rsi_14 (some 35) <;>
    cases nanLt (some r.close) r.bb_lower <;>
      cases nanLt r.stoch_k (some 20) <;>
        norm_num

theorem mrScore_eq (symbol : String) (r : IndRow) :
    (meanReversionEvaluate symbol r).score = mrRaw r := by
  obtain ⟨m, hm⟩ := mrRaw_int r
  have hb := mrRaw_bounds r
  show roundTo 2 (max 0 (min 100 (mrRaw r))) = mrRaw r
  rw [hm] at hb ⊢
  exact clamp_roundTo_intCast m (le_trans (by norm_num) hb.1) (le_trans hb.2 (by norm_num))

theorem bbRaw_int (r prev : IndRow) : ∃ m : ℤ, bbRaw r prev = (m : ℚ) := by
  obtain ⟨a, ha⟩ := ite_qint (nanGt (some r.close) r.bb_upper) 14 (-6) 14 (-6)
    (by norm_num) (by norm_num)
  obtain ⟨b, hb⟩ := ite_qint (nanGt (some r.volume) (some prev.volume)) 10 (-4) 10 (-4)
    (by norm_num) (by norm_num)
  obtain ⟨c, hc⟩ := ite_qint (nanGt (some r.close) r.vwap) 8 (-5) 8 (-5)
    (by norm_num) (by norm_num)
  refine ⟨50 + a + b + c, ?_⟩
  rw [bbRaw, bbUpperTerm, bbVolumeTerm, bbVwapTerm, ha, hb, hc]
  push_cast
  ring

theorem bbRaw_bounds (r prev : IndRow) : 35 ≤ bbRaw r prev ∧ bbRaw r prev ≤ 82 := by
  rw [bbRaw, bbUpperTerm, bbVolumeTerm, bbVwapTerm]
  cases nanGt (some r.close) r.bb_upper <;>
    cases nanGt (some r.volume) (some prev.volume) <;>
      cases nanGt (some r.close) r.vwap <;>
        norm_num

theorem bbScore_eq (symbol : String) (r prev : IndRow) :
    (breakoutEvaluate symbol r prev).score = bbRaw r prev := by
  obtain ⟨m, hm⟩ := bbRaw_int r prev
  have hb := bbRaw_bounds r prev
  show roundTo 2 (max 0 (min 100 (bbRaw r prev))) = bbRaw r prev
  rw [hm] at hb ⊢
  exact clamp_roundTo_intCast m (le_trans (by norm_num) hb.1) (le_trans hb.2 (by norm_num))

/-! ## Helper lemmas: the order planner -/

theorem sortDescStable_eq_nil_iff {α : Type} (key : α → ℚ) (l : List α) :
    sortDescStable key l = [] ↔ l = [] := by
  constructor
  · intro h
    have hp := perm_sortDescStable key l
    rw [h] at hp
    exact hp.symm.eq_nil
  · intro h
    rw [h, sortDescStable]

theorem mem_build_order_plan (insights : List InsightRow) (market : List (String × ℚ))
    (preset : RiskPreset) (account_size : ℚ) (max_positions : ℕ) (execution_mode : String)
    (o : Order) :
    o ∈ build_order_plan insights market preset account_size max_positions execution_mode ↔
      ∃ r ∈ tradable insights preset max_positions,
        mkOrder market preset account_size execution_mode r = some o := by
  rw [build_order_plan, mem_sortDescStable, planOrders, List.mem_filterMap]

theorem mkOrder_eq_none_iff (market : List (String × ℚ)) (preset : RiskPreset)
    (account_size : ℚ) (execution_mode : String) (r : InsightRow) :
    mkOrder market preset account_size execution_mode r = none ↔
      ((market.lookup (lowerStr r.symbol)).getD 0) ≤ 0 := by
  rw [mkOrder]
  split_ifs with h
  · simp [h]
  · simp [h]

theorem mkOrder_some_fields (market : List (String × ℚ)) (preset : RiskPreset)
    (account_size : ℚ) (execution_mode : String) (r : InsightRow) (o : Order)
    (h : mkOrder market preset account_size execution_mode r = some o) :
    0 < ((market.lookup (lowerStr r.symbol)).getD 0) ∧
    o.symbol = r.symbol ∧
    o.signal_score = r.score ∧
    o.entry = roundTo 6 ((market.lookup (lowerStr r.symbol)).getD 0) ∧
    o.stop_loss = roundTo 6 (((market.lookup (lowerStr r.symbol)).getD 0) *
      (1 - preset.stop_loss_pct / 100)) ∧
    o.take_profit = roundTo 6 (((market.lookup (lowerStr r.symbol)).getD 0) *
      (1 + preset.take_profit_pct / 100)) ∧
    o.position_size_units = roundTo 4 ((account_size * (preset.risk_per_trade / 100)) /
      max (((market.lookup (lowerStr r.symbol)).getD 0) -
        ((market.lookup (lowerStr r.symbol)).getD 0) * (1 - preset.stop_loss_pct / 100))
        (1 / 100000000)) ∧
    o.action = "BUY" ∧
    o.execution_mode = execution_mode := by
  rw [mkOrder] at h
  split_ifs at h with he
  simp only [Option.some.injEq] at h
  subst h
  exact ⟨lt_of_not_le he, rfl, rfl, rfl, rfl, rfl, rfl, rfl, rfl⟩

/-- Concrete evaluation of the planner on the sample fixtures. -/
theorem sample_plan_eval :
    build_order_plan sampleInsights sampleMarket samplePreset 10000 4 "paper" = [sampleOrder] := by
  have e0 : lowerStr "BTC" = "btc" := rfl
  have e00 : List.lookup "btc" sampleMarket = some (100 : ℚ) := rfl
  have e1 : roundTo 6 (100 : ℚ) = 100 := by exact_mod_cast roundTo_intCast 6 100
  have e2 : (100 : ℚ) * (1 - 2 / 100) = 98 := by norm_num
  have e3 : roundTo 6 (98 : ℚ) = 98 := by exact_mod_cast roundTo_intCast 6 98
  have e4 : (100 : ℚ) * (1 + 2 / 100) = 102 := by norm_num
  have e5 : roundTo 6 (102 : ℚ) = 102 := by exact_mod_cast roundTo_intCast 6 102
  have e7 : roundTo 4 (50 : ℚ) = 50 := by exact_mod_cast roundTo_intCast 4 50
  have e8 : max (2 : ℚ) (1 / 100000000) = 2 := max_eq_left (by norm_num)
  norm_num [build_order_plan, planOrders, tradable, sampleInsights, sampleMarket, samplePreset,
    mkOrder, sortDescStable, ordInsertDesc, sampleOrder, e0, e00, e1, e2, e3, e4, e5, e7, e8]

/-! ## Claim theorems -/

/-- C1: with `account_size = 10000`, a preset with `risk_per_trade = 1`,
`stop_loss_pct = 2`, `take_profit_pct = 2`, every order the planner emits
for a surviving candidate whose looked-up price is 100 has
`stop_loss = 98`, `take_profit = 102` and `position_size_units = 50`
(risk amount 100 over unit risk `max (100 - 98) 1e-8 = 2`), with entry,
stop and target rounded to 6 decimals and the size to 4 decimals. -/
theorem order_plan_risk_sizing_at_entry100
    (insights : List InsightRow) (market : List (String × ℚ)) (preset : RiskPreset)
    (max_positions : ℕ) (execution_mode : String) (o : Order)
    (h1 : preset.risk_per_trade = 1) (h2 : preset.stop_loss_pct = 2)
    (h3 : preset.take_profit_pct = 2)
    (ho : o ∈ build_order_plan insights market preset 10000 max_positions execution_mode)
    (hp : market.lookup (lowerStr o.symbol) = some 100) :
    o.entry = 100 ∧ o.stop_loss = 98 ∧ o.take_profit = 102 ∧ o.position_size_units = 50 := by
  obtain ⟨r, hr, hmk⟩ :=
    (mem_build_order_plan insights market preset 10000 max_positions execution_mode o).mp ho
  obtain ⟨hpos, hsym, hscore, hentry, hstop, htp, hsize, hact, hem⟩ :=
    mkOrder_some_fields _ _ _ _ _ _ hmk
  rw [hsym] at hp
  rw [hp] at hentry hstop htp hsize
  simp only [Option.getD_some] at hentry hstop htp hsize
  rw [h2] at hstop hsize
  rw [h3] at htp
  rw [h1] at hsize
  refine ⟨?_, ?_, ?_, ?_⟩
  · rw [hentry]
    exact_mod_cast roundTo_intCast 6 100
  · rw [hstop, show (100 : ℚ) * (1 - 2 / 100) = 98 by norm_num]
    exact_mod_cast roundTo_intCast 6 98
  · rw [htp, show (100 : ℚ) * (1 + 2 / 100) = 102 by norm_num]
    exact_mod_cast roundTo_intCast 6 102
  · have hval : (10000 : ℚ) * (1 / 100) /
        max ((100 : ℚ) - 100 * (1 - 2 / 100)) (1 / 100000000) = 50 := by
      rw [show ((100 : ℚ) - 100 * (1 - 2 / 100)) = 2 by norm_num,
        max_eq_left (by norm_num : (1 : ℚ) / 100000000 ≤ 2)]
      norm_num
    rw [hsize, hval]
    exact_mod_cast roundTo_intCast 4 50

/-- Witness for C1: the sample fixtures produce exactly the predicted order. -/
theorem order_plan_risk_sizing_at_entry100_witness :
    sampleOrder.entry = 100 ∧ sampleOrder.stop_loss = 98 ∧ sampleOrder.take_profit = 102 ∧
      sampleOrder.position_size_units = 50 := by
  refine order_plan_risk_sizing_at_entry100 sampleInsights sampleMarket samplePreset 4 "paper"
    sampleOrder rfl rfl rfl ?_ rfl
  rw [sample_plan_eval]
  exact List.mem_singleton.mpr rfl

/-- C6: every emitted order's looked-up price exists and is positive
(candidates with missing or non-positive prices are skipped one by one),
and the plan is empty exactly when every filtered-and-truncated candidate
has a missing or non-positive price — never an error. -/
theorem order_plan_price_guard
    (insights : List InsightRow) (market : List (String × ℚ)) (preset : RiskPreset)
    (account_size : ℚ) (max_positions : ℕ) (execution_mode : String) :
    (∀ o ∈ build_order_plan insights market preset account_size max_positions execution_mode,
      ∃ p, market.lookup (lowerStr o.symbol) = some p ∧ 0 < p ∧ o.entry = roundTo 6 p) ∧
    (build_order_plan insights market preset account_size max_positions execution_mode = [] ↔
      ∀ r ∈ tradable insights preset max_positions,
        ((market.lookup (lowerStr r.symbol)).getD 0) ≤ 0) := by
  constructor
  · intro o ho
    obtain ⟨r, hr, hmk⟩ :=
      (mem_build_order_plan insights market preset account_size max_positions
        execution_mode o).mp ho
    obtain ⟨hpos, hsym, hscore, hentry, hrest⟩ := mkOrder_some_fields _ _ _ _ _ _ hmk
    rcases hl : market.lookup (lowerStr r.symbol) with _ | p
    · rw [hl] at hpos
      simp at hpos
    · refine ⟨p, ?_, ?_, ?_⟩
      · rw [hsym, hl]
      · rw [hl] at hpos
        simpa using hpos
      · rw [hentry, hl]
        simp
  · rw [build_order_plan, sortDescStable_eq_nil_iff, planOrders, List.filterMap_eq_nil_iff]
    exact ⟨fun h r hr => (mkOrder_eq_none_iff market preset account_size execution_mode r).mp
        (h r hr),
      fun h r hr => (mkOrder_eq_none_iff market preset account_size execution_mode r).mpr
        (h r hr)⟩

/-- Witness for C6: the sample order's looked-up price is positive. -/
theorem order_plan_price_guard_witness :
    ∃ p, sampleMarket.lookup (lowerStr sampleOrder.symbol) = some p ∧ 0 < p ∧
      sampleOrder.entry = roundTo 6 p := by
  refine (order_plan_price_guard sampleInsights sampleMarket samplePreset 10000 4 "paper").1
    sampleOrder ?_
  rw [sample_plan_eval]
  exact List.mem_singleton.mpr rfl

/-! ## Helper lemma: aggregation is permutation-invariant -/

theorem aggregate_congr_perm (l m : List BotSignal) (h : l.Perm m) :
    aggregate_symbol_score l = aggregate_symbol_score m := by
  rcases eq_or_ne l [] with rfl | hl
  · rw [h.symm.eq_nil]
  · have hm : m ≠ [] := by
      intro hm
      subst hm
      exact hl h.eq_nil
    rw [aggregate_symbol_score, aggregate_symbol_score, if_neg hl, if_neg hm]
    rw [(h.map (fun s => s.score)).sum_eq, h.length_eq, h.countP_eq (fun s => s.side == "BUY")]

/-- C10: `aggregate_symbol_score` is invariant under any permutation of the
signal rows; in particular the descending re-sort done by `run_bot_suite`
yields the same `ConsensusSummary` as the bot-evaluation order. -/
theorem aggregate_score_permutation_invariant (l m : List BotSignal) (h : l.Perm m)
    (symbol : String) (r prev : IndRow) :
    aggregate_symbol_score l = aggregate_symbol_score m ∧
    aggregate_symbol_score (run_bot_suite symbol r prev) =
      aggregate_symbol_score [trendEvaluate symbol r, meanReversionEvaluate symbol r,
        breakoutEvaluate symbol r prev] := by
  refine ⟨aggregate_congr_perm l m h, aggregate_congr_perm _ _ ?_⟩
  exact perm_sortDescStable _ _

/-- Witness for C10: a concrete transposition, and the sorted bot suite on a
concrete row. -/
theorem aggregate_score_permutation_invariant_witness :
    aggregate_symbol_score
        [trendEvaluate "btc" rowAllNone, meanReversionEvaluate "btc" rowAllNone] =
      aggregate_symbol_score
        [meanReversionEvaluate "btc" rowAllNone, trendEvaluate "btc" rowAllNone] ∧
    aggregate_symbol_score (run_bot_suite "btc" rowAllNone rowAllNone) =
      aggregate_symbol_score [trendEvaluate "btc" rowAllNone,
        meanReversionEvaluate "btc" rowAllNone,
        breakoutEvaluate "btc" rowAllNone rowAllNone] :=
  aggregate_score_permutation_invariant _ _ (List.Perm.swap _ _ _) "btc" rowAllNone rowAllNone

/-- C9: each bot's raw branch sum stays inside its attainable range
(TrendBot `[26,80]`, MeanReversionBot `[30,83]`, BreakoutBot `[35,82]`),
so the `[0,100]` clamp never changes it and the returned score equals the
raw sum (an integer, unchanged by 2-decimal rounding). -/
theorem bot_raw_scores_never_clamped (symbol : String) (r prev : IndRow) :
    (26 ≤ trendRaw r ∧ trendRaw r ≤ 80 ∧
      max 0 (min 100 (trendRaw r)) = trendRaw r ∧
      (trendEvaluate symbol r).score = trendRaw r) ∧
    (30 ≤ mrRaw r ∧ mrRaw r ≤ 83 ∧
      max 0 (min 100 (mrRaw r)) = mrRaw r ∧
      (meanReversionEvaluate symbol r).score = mrRaw r) ∧
    (35 ≤ bbRaw r prev ∧ bbRaw r prev ≤ 82 ∧
      max 0 (min 100 (bbRaw r prev)) = bbRaw r prev ∧
      (breakoutEvaluate symbol r prev).score = bbRaw r prev) := by
  obtain ⟨t1, t2⟩ := trendRaw_bounds r
  obtain ⟨m1, m2⟩ := mrRaw_bounds r
  obtain ⟨b1, b2⟩ := bbRaw_bounds r prev
  refine ⟨⟨t1, t2, ?_, trendScore_eq symbol r⟩, ⟨m1, m2, ?_, mrScore_eq symbol r⟩,
    ⟨b1, b2, ?_, bbScore_eq symbol r prev⟩⟩
  · rw [min_eq_right (le_trans t2 (by norm_num)), max_eq_right (le_trans (by norm_num) t1)]
  · rw [min_eq_right (le_trans m2 (by norm_num)), max_eq_right (le_trans (by norm_num) m1)]
  · rw [min_eq_right (le_trans b2 (by norm_num)), max_eq_right (le_trans (by norm_num) b1)]

/-- C2: the insight score is the linear feature blend clamped to `[0,100]`
and returned rounded to 2 decimals, and the action narrative is selected by
the exact thresholds `≥ 68` (momentum long), `≤ 38` (defensive), otherwise
range/breakout watch, applied to the clamped score. -/
theorem insight_score_formula_and_action_thresholds (row : FeatureRow) (s : ℚ)
    (h0 : 0 ≤ s) (h1 : s ≤ 100) :
    insightScore row s = max 0 (min 100
      (50 + 1.1 * row.trend_strength + 1.2 * (row.volume_to_mcap * 100) -
        0.5 * row.volatility + 0.3 * (s - 50))) ∧
    (generate_ai_insight row s).score = roundTo 2 (insightScore row s) ∧
    ((generate_ai_insight row s).action = "Momentum Long Setup" ↔ 68 ≤ insightScore row s) ∧
    ((generate_ai_insight row s).action = "Defensive / Mean-Reversion Watch" ↔
      insightScore row s ≤ 38) ∧
    ((generate_ai_insight row s).action = "Range Trade / Breakout Watch" ↔
      (38 < insightScore row s ∧ insightScore row s < 68)) := by
  have haction : (generate_ai_insight row s).action =
      (if 68 ≤ insightScore row s then "Momentum Long Setup"
       else if insightScore row s ≤ 38 then "Defensive / Mean-Reversion Watch"
       else "Range Trade / Breakout Watch") := rfl
  refine ⟨?_, rfl, ?_, ?_, ?_⟩
  · simp only [insightScore]
    congr 2
    ring
  · rw [haction]
    split_ifs with h68 h38
    · simp [h68]
    · simp only [iff_false_intro h68, iff_false]
      decide
    · simp only [iff_false_intro h68, iff_false]
      decide
  · rw [haction]
    split_ifs with h68 h38
    · constructor
      · intro hstr
        exact absurd hstr (by decide)
      · intro h38
        linarith
    · simp [h38]
    · simp only [iff_false_intro h38, iff_false]
      decide
  · rw [haction]
    split_ifs with h68 h38
    · constructor
      · intro hstr
        exact absurd hstr (by decide)
      · intro hc
        linarith [hc.2]
    · constructor
      · intro hstr
        exact absurd hstr (by decide)
      · intro hc
        linarith [hc.1]
    · simp only [true_iff]
      exact ⟨lt_of_not_le h38, lt_of_not_le h68⟩

/-- Witness for C2: trend 10, neutral sentiment gives clamped score 61 and
the range/breakout-watch action. -/
theorem insight_score_formula_and_action_thresholds_witness :
    (generate_ai_insight sampleFeatureRow 50).action = "Range Trade / Breakout Watch" := by
  have h := (insight_score_formula_and_action_thresholds sampleFeatureRow 50
    (by norm_num) (by norm_num)).2.2.2.2
  have hS : insightScore sampleFeatureRow 50 = 61 := by
    norm_num [insightScore, sampleFeatureRow, min_def, max_def]
  rw [hS] at h
  exact h.mpr (by norm_num)

/-! ## Helper lemmas: RSI -/

theorem diffAt_isSome_iff (p : List ℚ) (i : ℕ) :
    (diffAt p i).isSome = true ↔ (1 ≤ i ∧ i < p.length) := by
  rw [diffAt]
  rcases Nat.eq_zero_or_pos i with rfl | hi
  · simp
  · rw [if_neg (Nat.pos_iff_ne_zero.mp hi)]
    rcases lt_or_ge i p.length with h | h
    · have h1 : i - 1 < p.length := by omega
      rw [List.getElem?_eq_getElem h, List.getElem?_eq_getElem h1]
      simp only [Option.isSome_some, true_iff]
      exact ⟨hi, h⟩
    · rw [List.getElem?_eq_none h]
      simp
      omega

theorem gainAt_isSome_iff (p : List ℚ) (i : ℕ) :
    (gainAt p i).isSome = true ↔ (1 ≤ i ∧ i < p.length) := by
  rw [gainAt]
  cases hd : diffAt p i
  · rw [← diffAt_isSome_iff p i, hd]
    simp
  · rw [← diffAt_isSome_iff p i, hd]
    simp

theorem lossAt_isSome_iff (p : List ℚ) (i : ℕ) :
    (lossAt p i).isSome = true ↔ (1 ≤ i ∧ i < p.length) := by
  rw [lossAt]
  cases hd : diffAt p i
  · rw [← diffAt_isSome_iff p i, hd]
    simp
  · rw [← diffAt_isSome_iff p i, hd]
    simp

theorem nobs_le_of (x : ℕ → Option ℚ) (h0 : (x 0).isSome = false) (i : ℕ) :
    nobs x i ≤ i := by
  induction i with
  | zero => simp [nobs, h0]
  | succ i ih =>
    rw [nobs]
    by_cases h : (x (i + 1)).isSome = true <;> simp [h] <;> omega

theorem nobs_eq_of (x : ℕ → Option ℚ) (n : ℕ)
    (hx : ∀ j, (x j).isSome = true ↔ (1 ≤ j ∧ j < n)) (i : ℕ) (h : i < n) :
    nobs x i = i := by
  induction i with
  | zero =>
    have h0 : ¬ ((x 0).isSome = true) := by
      rw [hx 0]
      omega
    rw [nobs, if_neg h0]
  | succ i ih =>
    have hs : (x (i + 1)).isSome = true := (hx (i + 1)).mpr ⟨by omega, h⟩
    rw [nobs, if_pos hs, ih (by omega)]

theorem ewmRec_isSome_of (a : ℚ) (x : ℕ → Option ℚ) (n : ℕ)
    (hx : ∀ j, 1 ≤ j → j < n → (x j).isSome = true) (i : ℕ) (h1 : 1 ≤ i) (hn : i < n) :
    (ewmRec a x i).isSome = true := by
  induction i with
  | zero => exact absurd h1 (by omega)
  | succ i ih =>
    obtain ⟨v, hv⟩ := Option.isSome_iff_exists.mp (hx (i + 1) h1 hn)
    rw [ewmRec, hv]
    cases hprev : ewmRec a x i <;> simp

/-- C7: RSI(14) is undefined until 14 rows of history (deltas) have
accumulated; from row index 14 on it is
`100 - 100/(1 + avg_gain/avg_loss)` over the smoothed (`α = 1/14`)
recursive averages of the positive and sign-flipped negative delta parts,
and it stays undefined (not 100, not infinite) whenever the average loss
is exactly 0. -/
theorem rsi_window_and_zero_loss (p : List ℚ) (i : ℕ) :
    (i < 14 → rsi p 14 i = none) ∧
    (14 ≤ i → i < p.length →
      (avgLoss p 14 i = some 0 → rsi p 14 i = none) ∧
      (∀ g l, avgGain p 14 i = some g → avgLoss p 14 i = some l → l ≠ 0 →
        rsi p 14 i = some (100 - 100 / (1 + g / l)))) := by
  constructor
  · intro hi
    have hg0 : (gainAt p 0).isSome = false := by
      simp [gainAt, diffAt]
    have hle := nobs_le_of (gainAt p) hg0 i
    have hgate : ¬ (14 ≤ nobs (gainAt p) i) := by omega
    rw [rsi, avgGain, ewmMean, if_neg hgate]
  · intro h14 hlen
    have hg : (avgGain p 14 i).isSome = true := by
      rw [avgGain, ewmMean, if_pos]
      · exact ewmRec_isSome_of _ (gainAt p) p.length
          (fun j hj1 hj2 => (gainAt_isSome_iff p j).mpr ⟨hj1, hj2⟩) i (by omega) hlen
      · rw [nobs_eq_of (gainAt p) p.length (gainAt_isSome_iff p) i hlen]
        exact h14
    obtain ⟨g0, hg0⟩ := Option.isSome_iff_exists.mp hg
    constructor
    · intro hl
      rw [rsi, hg0, hl]
      simp
    · intro g l hgv hlv hlne
      rw [rsi, hgv, hlv]
      simp [hlne]

/-- Witness for C7: on a strictly decreasing series RSI is undefined at
row 3 and equals 0 at row 14; on a strictly increasing series the average
loss is 0 and RSI stays undefined at row 14. -/
theorem rsi_window_and_zero_loss_witness :
    rsi pricesDown 14 3 = none ∧ rsi pricesUp 14 14 = none ∧
      rsi pricesDown 14 14 = some 0 := by
  have h3 := (rsi_window_and_zero_loss pricesDown 3).1 (by norm_num)
  have hUp := ((rsi_window_and_zero_loss pricesUp 14).2 (le_refl 14)
    (by norm_num [pricesUp])).1
  have hDown := ((rsi_window_and_zero_loss pricesDown 14).2 (le_refl 14)
    (by norm_num [pricesDown])).2
  have hLossUp : avgLoss pricesUp 14 14 = some 0 := by
    norm_num [avgLoss, ewmMean, ewmRec, nobs, lossAt, diffAt, pricesUp]
  have hGainDown : avgGain pricesDown 14 14 = some 0 := by
    norm_num [avgGain, ewmMean, ewmRec, nobs, gainAt, diffAt, pricesDown]
  have hLossDown : avgLoss pricesDown 14 14 = some 1 := by
    norm_num [avgLoss, ewmMean, ewmRec, nobs, lossAt, diffAt, pricesDown]
  refine ⟨h3, hUp hLossUp, ?_⟩
  rw [hDown 0 1 hGainDown hLossDown (by norm_num)]
  norm_num

/-- C8: a trailing price path with fewer than 3 observations has
volatility exactly 0; the 3-point path `[100, 110, 99]` has returns
`[1/10, -1/10]` (first, non-computable return dropped) and volatility
`std-dev(returns) * sqrt(count) * 100`, the non-zero value 20. -/
theorem volatility_score_short_path_and_example :
    (∀ p : List ℚ, p.length < 3 → volatility_score p = 0) ∧
    pct_change_returns [100, 110, 99] = [1 / 10, -1 / 10] ∧
    volatility_score [100, 110, 99] =
      sampleStd [1 / 10, -1 / 10] * Real.sqrt 2 * 100 ∧
    volatility_score [100, 110, 99] = 20 ∧ (20 : ℝ) ≠ 0 := by
  have hret : pct_change_returns [(100 : ℚ), 110, 99] = [1 / 10, -1 / 10] := by
    norm_num [pct_change_returns]
  have hform : volatility_score [(100 : ℚ), 110, 99] =
      sampleStd [1 / 10, -1 / 10] * Real.sqrt 2 * 100 := by
    rw [volatility_score, if_neg (by norm_num)]
    simp only [hret]
    rw [if_neg (by simp)]
    norm_num
  refine ⟨?_, hret, hform, ?_, by norm_num⟩
  · intro p hp
    rw [volatility_score, if_pos hp]
  · rw [hform]
    have hvar : sampleVar [(1 : ℚ) / 10, -1 / 10] = 1 / 50 := by
      norm_num [sampleVar, listMean]
    rw [sampleStd, hvar]
    have hc : (((1 : ℚ) / 50 : ℚ) : ℝ) = 1 / 50 := by push_cast; norm_num
    rw [hc, ← Real.sqrt_mul (by norm_num : (0 : ℝ) ≤ 1 / 50) 2,
      show ((1 : ℝ) / 50) * 2 = (1 / 5) ^ 2 by norm_num,
      Real.sqrt_sq (by norm_num : (0 : ℝ) ≤ 1 / 5)]
    norm_num

/-- Witness for C8: a 2-point path has volatility exactly 0. -/
theorem volatility_score_short_path_witness :
    volatility_score [(1 : ℚ), 2] = 0 :=
  volatility_score_short_path_and_example.1 [(1 : ℚ), 2] (by norm_num)

/-- C4 counterexample: at the 20-row series `pricesStep` the code's rolling
standard deviation (pandas `ddof=1`, divide by 19) is `sqrt(20/19)`, not
the population value `sqrt(1) = 1` the claim asserts. -/
theorem bollinger_bands_population_std_cex :
    rollingStd pricesStep 20 19 ≠ some (popStd (windowAt pricesStep 20 19)) := by
  have hwin : windowAt pricesStep 20 19 = pricesStep := rfl
  have hvar : sampleVar pricesStep = 20 / 19 := by
    norm_num [sampleVar, listMean, pricesStep]
  have hpop : popVar pricesStep = 1 := by
    norm_num [popVar, listMean, pricesStep]
  have hgate : 20 ≤ 19 + 1 ∧ 19 < pricesStep.length := ⟨by norm_num, by norm_num [pricesStep]⟩
  rw [rollingStd, if_pos hgate, sampleStd, popStd, hwin, hvar, hpop]
  intro h
  have h2 := Option.some_injective _ h
  have hc1 : (((20 : ℚ) / 19 : ℚ) : ℝ) = 20 / 19 := by push_cast; norm_num
  have hc2 : (((1 : ℚ)) : ℝ) = 1 := by push_cast; norm_num
  rw [hc1, hc2, Real.sqrt_one] at h2
  have h3 : ((20 : ℝ) / 19) = 1 := by
    rw [← Real.sq_sqrt (show (0 : ℝ) ≤ 20 / 19 by norm_num), h2, one_pow]
  norm_num at h3

/-- C4 (amended): with period 20 and `k = 2`, at every defined row the
middle band is the 20-period SMA and the band half-width is twice the
rolling *sample* standard deviation (pandas default `ddof=1`, normalised
by 19) of the trailing 20 values: `upper = middle + 2·std`,
`lower = middle - 2·std`. -/
theorem bollinger_bands_sample_std (p : List ℚ) (i : ℕ) (h1 : 19 ≤ i) (h2 : i < p.length) :
    ∃ m : ℚ, sma p 20 i = some m ∧
      rollingStd p 20 i = some (Real.sqrt ((sampleVar (windowAt p 20 i) : ℚ) : ℝ)) ∧
      bollinger_bands p 20 2 i = some
        ((m : ℝ) + 2 * Real.sqrt ((sampleVar (windowAt p 20 i) : ℚ) : ℝ), (m : ℝ),
          (m : ℝ) - 2 * Real.sqrt ((sampleVar (windowAt p 20 i) : ℚ) : ℝ)) := by
  have hgate : 20 ≤ i + 1 ∧ i < p.length := ⟨by omega, h2⟩
  refine ⟨(windowAt p 20 i).sum / ((20 : ℕ) : ℚ), ?_, ?_, ?_⟩
  · rw [sma, if_pos hgate]
  · rw [rollingStd, if_pos hgate, sampleStd]
  · rw [bollinger_bands, sma, if_pos hgate, rollingStd, if_pos hgate, sampleStd]

/-- Witness for C4: a flat 20-price series gives bands `(5, 5, 5)`. -/
theorem bollinger_bands_sample_std_witness :
    bollinger_bands pricesFlat 20 2 19 = some (5, 5, 5) := by
  obtain ⟨m, hm, hs, hb⟩ := bollinger_bands_sample_std pricesFlat 19 (le_refl 19)
    (by norm_num [pricesFlat])
  have hm5 : sma pricesFlat 20 19 = some 5 := by
    norm_num [sma, windowAt, pricesFlat]
  have hmv : m = 5 := by
    rw [hm5] at hm
    exact (Option.some_injective _ hm).symm
  subst hmv
  have hvar0 : sampleVar (windowAt pricesFlat 20 19) = 0 := by
    norm_num [windowAt, pricesFlat, sampleVar, listMean]
  have hcast : ((sampleVar (windowAt pricesFlat 20 19) : ℚ) : ℝ) = 0 := by
    rw [hvar0]
    norm_num
  rw [hb, hcast, Real.sqrt_zero]
  norm_num

/-! ## Helper lemmas: the checked (NaN/NA-accurate) bot semantics -/

/-- On NA-free cells the Python comparison agrees with the `Option` view. -/
theorem cellGt_toOpt (a b : Cell) (ha : a ≠ Cell.na) (hb : b ≠ Cell.na) :
    cellGt a b = PyBool.b (nanGt a.toOpt b.toOpt) := by
  cases a <;> cases b <;> simp_all [cellGt, nanGt, Cell.toOpt]

/-- A non-NA comparison result never raises: the conditional returns the
branch selected by the boolean. -/
theorem pyIf_b {α : Type} (v : Bool) (t e : α) :
    pyIf (PyBool.b v) t e = Except.ok (if v then t else e) := by
  cases v <;> rfl

/-- On rows without `NA` cells `TrendBot` never raises and agrees with the
total `Option` model. -/
theorem trendEvaluateChecked_no_na (symbol : String) (r : NARow)
    (h1 : r.ema_20 ≠ Cell.na) (h2 : r.macd ≠ Cell.na) (h3 : r.signal ≠ Cell.na)
    (h4 : r.rsi_14 ≠ Cell.na) :
    trendEvaluateChecked symbol r = Except.ok (trendEvaluate symbol r.toIndRow) := by
  rw [trendEvaluateChecked,
    cellGt_toOpt (Cell.val r.close) r.ema_20 (by simp) h1,
    cellGt_toOpt r.macd r.signal h2 h3,
    cellGt_toOpt r.rsi_14 (Cell.val 50) h4 (by simp),
    pyIf_b, pyIf_b, pyIf_b]
  rfl

/-- On rows without `NA` cells `MeanReversionBot` never raises and agrees
with the total `Option` model. -/
theorem meanReversionEvaluateChecked_no_na (symbol : String) (r : NARow)
    (h1 : r.rsi_14 ≠ Cell.na) (h2 : r.bb_lower ≠ Cell.na) (h3 : r.stoch_k ≠ Cell.na) :
    meanReversionEvaluateChecked symbol r =
      Except.ok (meanReversionEvaluate symbol r.toIndRow) := by
  rw [meanReversionEvaluateChecked, cellLt,
    cellGt_toOpt (Cell.val 35) r.rsi_14 (by simp) h1, cellLt,
    cellGt_toOpt r.bb_lower (Cell.val r.close) h2 (by simp), cellLt,
    cellGt_toOpt (Cell.val 20) r.stoch_k (by simp) h3,
    pyIf_b, pyIf_b, pyIf_b]
  rfl

/-- On rows without `NA` cells `BreakoutBot` never raises and agrees with
the total `Option` model. -/
theorem breakoutEvaluateChecked_no_na (symbol : String) (r prev : NARow)
    (h1 : r.bb_upper ≠ Cell.na) (h2 : r.vwap ≠ Cell.na) :
    breakoutEvaluateChecked symbol r prev =
      Except.ok (breakoutEvaluate symbol r.toIndRow prev.toIndRow) := by
  rw [breakoutEvaluateChecked,
    cellGt_toOpt (Cell.val r.close) r.bb_upper (by simp) h1,
    cellGt_toOpt (Cell.val r.volume) (Cell.val prev.volume) (by simp) (by simp),
    cellGt_toOpt (Cell.val r.close) r.vwap (by simp) h2,
    pyIf_b, pyIf_b, pyIf_b]
  rfl

/-- A row whose every indicator cell is float NaN evaluates without raising
and exactly like the all-undefined `Option` row: the negative branches. -/
theorem checked_nan_negative_branch :
    trendEvaluateChecked "btc" rowAllNanCells = Except.ok (trendEvaluate "btc" rowAllNone) ∧
    meanReversionEvaluateChecked "btc" rowAllNanCells =
      Except.ok (meanReversionEvaluate "btc" rowAllNone) ∧
    breakoutEvaluateChecked "btc" rowAllNanCells rowAllNanCells =
      Except.ok (breakoutEvaluate "btc" rowAllNone rowAllNone) := by
  have hr : rowAllNanCells.toIndRow = rowAllNone := rfl
  refine ⟨?_, ?_, ?_⟩
  · rw [trendEvaluateChecked_no_na "btc" rowAllNanCells (by simp [rowAllNanCells])
      (by simp [rowAllNanCells]) (by simp [rowAllNanCells]) (by simp [rowAllNanCells]), hr]
  · rw [meanReversionEvaluateChecked_no_na "btc" rowAllNanCells (by simp [rowAllNanCells])
      (by simp [rowAllNanCells]) (by simp [rowAllNanCells]), hr]
  · rw [breakoutEvaluateChecked_no_na "btc" rowAllNanCells rowAllNanCells
      (by simp [rowAllNanCells]) (by simp [rowAllNanCells]), hr]

/-- A `pd.NA` in `rsi_14` makes `TrendBot.evaluate` raise: whatever the
first two conditionals do, evaluation never reaches a `BotSignal`. -/
theorem trendEvaluateChecked_na_rsi (symbol : String) (r : NARow)
    (h : r.rsi_14 = Cell.na) :
    ∃ e, trendEvaluateChecked symbol r = Except.error e := by
  rcases hp1 : pyIf (cellGt (Cell.val r.close) r.ema_20) (12 : ℚ) (-10) with e1 | t1
  · exact ⟨e1, by rw [trendEvaluateChecked, hp1]⟩
  · rcases hp2 : pyIf (cellGt r.macd r.signal) (10 : ℚ) (-8) with e2 | t2
    · exact ⟨e2, by simp only [trendEvaluateChecked, hp1, hp2]⟩
    · refine ⟨"TypeError: boolean value of NA is ambiguous", ?_⟩
      rw [trendEvaluateChecked, hp1, hp2, h]
      rfl

/-- A `pd.NA` in `rsi_14` makes `MeanReversionBot.evaluate` raise at its
very first conditional. -/
theorem meanReversionEvaluateChecked_na_rsi (symbol : String) (r : NARow)
    (h : r.rsi_14 = Cell.na) :
    ∃ e, meanReversionEvaluateChecked symbol r = Except.error e :=
  ⟨"TypeError: boolean value of NA is ambiguous", by
    rw [meanReversionEvaluateChecked, h]
    rfl⟩

/-- A `pd.NA` in `vwap` (cumulative volume 0, `indicators.py` line 63)
makes `BreakoutBot.evaluate` raise as well. -/
theorem breakoutEvaluateChecked_na_vwap (symbol : String) (r prev : NARow)
    (h : r.vwap = Cell.na) :
    ∃ e, breakoutEvaluateChecked symbol r prev = Except.error e := by
  rcases hp1 : pyIf (cellGt (Cell.val r.close) r.bb_upper) (14 : ℚ) (-6) with e1 | t1
  · exact ⟨e1, by rw [breakoutEvaluateChecked, hp1]⟩
  · rcases hp2 : pyIf (cellGt (Cell.val r.volume) (Cell.val prev.volume)) (10 : ℚ) (-4)
      with e2 | t2
    · exact ⟨e2, by simp only [breakoutEvaluateChecked, hp1, hp2]⟩
    · refine ⟨"TypeError: boolean value of NA is ambiguous", ?_⟩
      rw [breakoutEvaluateChecked, hp1, hp2, h]
      rfl

/-- C3 (code bug): the claim states the specification's contract (rules on
undefined inputs fall to their negative branch and no bot ever raises),
but the code breaks it.  `replace(0, pd.NA)` stores the pandas `NA`
singleton, not a float NaN: on the strictly rising series `pricesUp` the
average loss at the latest row is exactly 0, the stored `rsi_14` cell is
`NA`, `row["rsi_14"] > 50` evaluates to `NA`, and the conditional's
truthiness test `bool(pd.NA)` raises `TypeError` inside
`TrendBot.evaluate` and `MeanReversionBot.evaluate` — the bots crash
instead of returning a `BotSignal`.  (Cells that are float NaN — missing
history — do fall to the negative branch; see
`checked_nan_negative_branch`.) -/
theorem bots_raise_on_na_rsi :
    rsiCell pricesUp 14 14 = Cell.na ∧
    rowNaRsi.rsi_14 = Cell.na ∧
    (∃ e, trendEvaluateChecked "btc" rowNaRsi = Except.error e) ∧
    (∃ e, meanReversionEvaluateChecked "btc" rowNaRsi = Except.error e) := by
  refine ⟨?_, rfl, trendEvaluateChecked_na_rsi "btc" rowNaRsi rfl,
    meanReversionEvaluateChecked_na_rsi "btc" rowNaRsi rfl⟩
  norm_num [rsiCell, avgGain, avgLoss, ewmMean, ewmRec, nobs, gainAt, lossAt, diffAt, pricesUp]

end CryptoSignal
